import Mathlib

/-!
Shallow embedding of src/src/lib.rs of the rhai-plugin-test repository.

The plugin keeps a rhai scripting scope alive across simulation ticks
(function transform_editor, lines 92-140 of lib.rs) and a UI handler
(function ui_update, lines 142-231).  The rhai engine itself is an external
dependency; per the specification it is treated as an opaque capability
that evaluates a source string against a scope and returns either a dynamic
value or an error.  We therefore parameterise the embedding over an
evaluation function (Eval) and a compilation check (String to Except), and
model the data structures the plugin manipulates directly: dynamic values,
the scope, rhai object maps, the Transform component, and the string keyed
snapshot produced from the ECS query.

Floating point fields of the Transform component are represented by Int:
none of the verified claims depend on float arithmetic, only on the shape
of the marshalled data and on which entries decode successfully.
-/

/-- Model of rhai Dynamic: the dynamic value representation of the
scripting runtime.  Only the shapes the plugin actually marshals are
needed: unit, integers, strings, arrays and object maps. -/
inductive Dyn where
  | unit : Dyn
  | int : Int → Dyn
  | str : String → Dyn
  | arr : List Dyn → Dyn
  | map : List (String × Dyn) → Dyn

/-- A rhai Scope is an ordered stack of named entries searched from the most
recently pushed entry.  We store entries most recent first, so rhai search
from the back becomes search from the front. -/
abbrev ScopeL := List (String × Dyn)

/-- The opaque scripting runtime: evaluate a program against a scope,
returning a dynamic value or an error message, together with the scope as
mutated by the evaluation (rhai eval_with_scope mutates the scope in both
the success and the error case). -/
abbrev Eval := ScopeL → String → Except String Dyn × ScopeL

/-- rhai Scope::get : find the most recently pushed entry with the name. -/
def scopeGet : ScopeL → String → Option Dyn
  | [], _ => none
  | e :: r, n => if e.1 = n then some e.2 else scopeGet r n

/-- rhai Scope::push : add a new entry shadowing any previous one. -/
def scopePush (sc : ScopeL) (n : String) (v : Dyn) : ScopeL :=
  (n, v) :: sc

/-- rhai Scope::remove : remove the most recently pushed entry with the
name, returning its value; when no entry has the name, nothing changes. -/
def scopeRemoveDyn : ScopeL → String → Option Dyn × ScopeL
  | [], _ => (none, [])
  | e :: r, n =>
    if e.1 = n then (some e.2, r)
    else
      match scopeRemoveDyn r n with
      | (v, r2) => (v, e :: r2)

/-- rhai Scope::remove with the rhai Map type argument, as called at
lib.rs lines 106 and 123.  rhai removes the entry first and only then
attempts the typed downcast, so when the entry holds a value that is not a
map, the entry is still removed and its value is dropped; the call simply
returns none. -/
def scopeRemoveMap (sc : ScopeL) (n : String) : Option (List (String × Dyn)) × ScopeL :=
  match scopeRemoveDyn sc n with
  | (some (Dyn.map m), sc2) => (some m, sc2)
  | (_, sc2) => (none, sc2)

/-- rhai Scope::set_value : overwrite the most recently pushed entry with
the name, or push a fresh entry when none exists. -/
def scopeSetValue : ScopeL → String → Dyn → ScopeL
  | [], n, v => [(n, v)]
  | e :: r, n, v => if e.1 = n then (n, v) :: r else e :: scopeSetValue r n v

/-- rhai Map::insert : replace the value at the key, or add the entry. -/
def mapInsert : List (String × Dyn) → String → Dyn → List (String × Dyn)
  | [], n, v => [(n, v)]
  | e :: r, n, v => if e.1 = n then (n, v) :: r else e :: mapInsert r n v

/-- rhai Map::remove : take the entry at the key out of the map. -/
def mapRemove : List (String × Dyn) → String → Option Dyn × List (String × Dyn)
  | [], _ => (none, [])
  | e :: r, n =>
    if e.1 = n then (some e.2, r)
    else
      match mapRemove r n with
      | (v, r2) => (v, e :: r2)

/-- Lookup in a rhai map without removing. -/
def mapGet : List (String × Dyn) → String → Option Dyn
  | [], _ => none
  | e :: r, n => if e.1 = n then some e.2 else mapGet r n

/-- Position component of cimvr_common Transform (f32 fields modelled as
Int; the claims do not depend on float values). -/
structure Vec3 where
  x : Int
  y : Int
  z : Int
deriving DecidableEq

/-- Orientation component of cimvr_common Transform. -/
structure Quat where
  x : Int
  y : Int
  z : Int
  w : Int
deriving DecidableEq

/-- cimvr_common Transform: the typed ECS record marshalled in and out of
the scripting scope each tick. -/
structure Transform where
  pos : Vec3
  orient : Quat
deriving DecidableEq

/-- rhai serde to_dynamic applied to a Transform: the serde encoding of the
record as a dynamic map of its two fields. -/
def encodeTransform (t : Transform) : Dyn :=
  Dyn.map
    [("pos", Dyn.arr [Dyn.int t.pos.x, Dyn.int t.pos.y, Dyn.int t.pos.z]),
     ("orient", Dyn.arr [Dyn.int t.orient.x, Dyn.int t.orient.y,
        Dyn.int t.orient.z, Dyn.int t.orient.w])]

/-- rhai serde from_dynamic for a single Transform: accepts exactly the
serde shape produced by encodeTransform and rejects everything else. -/
def decodeTransform : Dyn → Option Transform
  | Dyn.map
      [("pos", Dyn.arr [Dyn.int px, Dyn.int py, Dyn.int pz]),
       ("orient", Dyn.arr [Dyn.int qx, Dyn.int qy, Dyn.int qz, Dyn.int qw])] =>
    some ⟨⟨px, py, pz⟩, ⟨qx, qy, qz, qw⟩⟩
  | _ => none

/-- Serde map deserialization of the snapshot entries: values are decoded
in order and the first failure aborts the whole decode with a type
mismatch diagnostic that does not name the offending key, exactly as the
serde HashMap visitor behaves inside rhai serde from_dynamic. -/
def decodeEntries : List (String × Dyn) → Except String (List (String × Transform))
  | [] => Except.ok []
  | (k, v) :: rest =>
    match decodeTransform v with
    | none => Except.error "Data type incorrect for Transform"
    | some t =>
      match decodeEntries rest with
      | Except.error e => Except.error e
      | Except.ok ts => Except.ok ((k, t) :: ts)

/-- rhai serde from_dynamic at type HashMap of String to Transform, as
called at lib.rs line 126: the whole dynamic value must be a map and every
value in it must decode; the decode is all or nothing. -/
def fromDynamicMap : Dyn → Except String (List (String × Transform))
  | Dyn.map es => decodeEntries es
  | _ => Except.error "Data type incorrect: expected map"

/-- Rust str::parse for the unsigned 128 bit integer inside EntityId: an
optional leading plus sign followed by one or more ASCII digits whose value
fits in 128 bits; anything else fails to parse. -/
def parseU128 (s : String) : Option Nat :=
  let cs :=
    match s.data with
    | '+' :: rest => rest
    | cs => cs
  if cs.isEmpty then none
  else if cs.all Char.isDigit then
    let n := cs.foldl (fun a c => a * 10 + (c.toNat - 48)) 0
    if n < 2 ^ 128 then some n else none
  else none

/-- The write back loop of lib.rs lines 131-134: for each decoded entry the
key is parsed back to an EntityId with key.parse().unwrap() and the typed
record is written to that entity.  A key that fails to parse makes the
unwrap panic, aborting the plugin: the error constructor models that
process abort (the writes already issued before the abort die with the
plugin).  On success the list of performed writes is returned. -/
def writeLoop : List (String × Transform) → Except String (List (Nat × Transform))
  | [] => Except.ok []
  | (k, v) :: rest =>
    match parseU128 k with
    | none => Except.error ("panicked: invalid EntityId key: " ++ k)
    | some n =>
      match writeLoop rest with
      | Except.error e => Except.error e
      | Except.ok ws => Except.ok ((n, v) :: ws)

/-- Display of a rhai Dynamic value, used by the Returned response text. -/
def dynDisplay : Dyn → String
  | Dyn.unit => ""
  | Dyn.int i => toString i
  | Dyn.str s => s
  | Dyn.arr xs => "[" ++ dynDisplayList xs ++ "]"
  | Dyn.map es => "#\x7b" ++ dynDisplayEntries es ++ "\x7d"
where
  dynDisplayList : List Dyn → String
    | [] => ""
    | [d] => dynDisplay d
    | d :: ds => dynDisplay d ++ ", " ++ dynDisplayList ds
  dynDisplayEntries : List (String × Dyn) → String
    | [] => ""
    | [(k, d)] => k ++ ": " ++ dynDisplay d
    | (k, d) :: es => k ++ ": " ++ dynDisplay d ++ ", " ++ dynDisplayEntries es

/-- The mutable plugin state of struct ClientState (lib.rs lines 19-29).
The engine handle and the two GuiTab handles carry no state the claims
mention; the evaluation and compilation capabilities they provide are
passed as parameters to the functions below. -/
structure ClientState where
  scope : ScopeL
  script : String
  response_text : String
  command_line : String
  command : Option String

/-- The program string built by run_command at lib.rs line 78: the
committed script, then the builtin prelude, then the command, each
preceded by a newline. -/
def runProgram (script builtin command : String) : String :=
  "\n" ++ script ++ "\n" ++ builtin ++ "\n" ++ command

/-- ClientState::run_command (lib.rs lines 75-90): evaluate the combined
program against the scope; on error, set the response text to the error
diagnostic and return the error, otherwise return the dynamic value.  The
scope is updated with whatever the evaluation left in it. -/
def run_command (eval : Eval) (builtin : String) (s : ClientState)
    (command : String) : ClientState × Except String Dyn :=
  match eval s.scope (runProgram s.script builtin command) with
  | (Except.error e, sc) =>
    ({ s with
        scope := sc,
        response_text := "error running " ++ command ++ ": " ++ e },
     Except.error e)
  | (Except.ok d, sc) => ({ s with scope := sc }, Except.ok d)

/-- Lines 93-96: create the reserved state entry as an empty map when no
entry of that name exists in the scope. -/
def ensure_state (sc : ScopeL) : ScopeL :=
  match scopeGet sc "state" with
  | none => scopePush sc "state" (Dyn.map [])
  | some _ => sc

/-- Lines 99-103: the Component Snapshot, keyed by the decimal string form
of each matched EntityId, with each Transform converted to its dynamic
form. -/
def snapshotDyn (q : List (Nat × Transform)) : Dyn :=
  Dyn.map (q.map (fun e => (toString e.1, encodeTransform e.2)))

/-- Lines 106-109: remove the state entry as a typed map; when that
succeeds, store the snapshot inside it under the transforms key and put it
back.  When the typed removal yields nothing the snapshot is not injected
(and, per the semantics of the typed removal, a non map state value has
been dropped from the scope). -/
def injectSnapshot (sc : ScopeL) (snap : Dyn) : ScopeL :=
  match scopeRemoveMap sc "state" with
  | (some st, sc1) => scopeSetValue sc1 "state" (Dyn.map (mapInsert st "transforms" snap))
  | (none, sc1) => sc1

/-- Lines 93-113 up to the update call: ensure the state entry, inject the
snapshot, and evaluate the fixed update command, discarding its result
(run_command still records an error diagnostic in the response text). -/
def updatePhase (eval : Eval) (builtin : String) (q : List (Nat × Transform))
    (s : ClientState) : ClientState :=
  (run_command eval builtin
    { s with scope := injectSnapshot (ensure_state s.scope) (snapshotDyn q) }
    "state.update();").1

/-- Lines 116-120: take the pending command (clearing the slot before the
evaluation), evaluate it, and on success overwrite the response text with
the Returned message; on failure run_command has already stored the error
diagnostic. -/
def commandPhase (eval : Eval) (builtin : String) (s2 : ClientState) : ClientState :=
  match s2.command with
  | some command =>
    (match run_command eval builtin { s2 with command := none } command with
     | (s3, Except.ok d) => { s3 with response_text := "Returned: " ++ dynDisplay d }
     | (s3, Except.error _) => s3)
  | none => s2

/-- Lines 123-139: remove the state entry as a typed map; when present,
take the transforms key out of it, decode the whole snapshot back to typed
records, and on success write every record to the entity parsed from its
key (a key that fails to parse panics, modelled by the error constructor).
A decode failure replaces the response text with the error diagnostic and
performs no writes.  The state map, stripped of the transforms key, is
stored back in the scope. -/
def writeback (sc : ScopeL) (response : String) :
    Except String (ScopeL × String × List (Nat × Transform)) :=
  match scopeRemoveMap sc "state" with
  | (some st, sc1) =>
    (match mapRemove st "transforms" with
     | (some transforms, st1) =>
       (match fromDynamicMap transforms with
        | Except.error e =>
          Except.ok (scopeSetValue sc1 "state" (Dyn.map st1), "error: " ++ e, [])
        | Except.ok retMap =>
          (match writeLoop retMap with
           | Except.error p => Except.error p
           | Except.ok ws =>
             Except.ok (scopeSetValue sc1 "state" (Dyn.map st1), response, ws)))
     | (none, st1) =>
       Except.ok (scopeSetValue sc1 "state" (Dyn.map st1), response, []))
  | (none, sc1) => Except.ok (sc1, response, [])

/-- ClientState::transform_editor (lib.rs lines 92-140), one simulation
tick: ensure state, inject the snapshot, run the update entry point, run
the pending command if any, then write the snapshot back to the world.
The result carries the final plugin state together with the list of entity
writes performed; the error constructor models the process abort caused by
the unwrap on a malformed entity key. -/
def transform_editor (eval : Eval) (builtin : String)
    (q : List (Nat × Transform)) (s : ClientState) :
    Except String (ClientState × List (Nat × Transform)) :=
  let s3 := commandPhase eval builtin (updatePhase eval builtin q s)
  match writeback s3.scope s3.response_text with
  | Except.error p => Except.error p
  | Except.ok (sc, resp, ws) =>
    Except.ok ({ s3 with scope := sc, response_text := resp }, ws)

/-- ClientState::ui_update (lib.rs lines 142-192).  The editor widget
(code_view_ui) writes the edited text straight into the script field and
reports whether it changed; when it changed, the edited script alone is
given to the compile check, whose outcome only sets the response text.
The console widget stores the edited command line and, when the Run button
is clicked, overwrites the pending command slot with the current command
line.  The remaining console code only renders the response text. -/
def ui_update (compile : String → Except String Unit)
    (editedText commandLineText : String) (runClicked : Bool)
    (s : ClientState) : ClientState :=
  let s1 := { s with script := editedText }
  let s2 :=
    if editedText ≠ s.script then
      match compile s1.script with
      | Except.error e => { s1 with response_text := "Script compile error: " ++ e }
      | Except.ok _ => { s1 with response_text := "Compilation successful" }
    else s1
  let s3 := { s2 with command_line := commandLineText }
  if runClicked then { s3 with command := some s3.command_line } else s3

/-! ### Helper lemmas about the scope and map operations -/

theorem scopeGet_push_same (sc : ScopeL) (n : String) (v : Dyn) :
    scopeGet (scopePush sc n v) n = some v := by
  simp [scopeGet, scopePush]

theorem scopeGet_setValue (sc : ScopeL) (n : String) (v : Dyn) :
    scopeGet (scopeSetValue sc n v) n = some v := by
  induction sc with
  | nil => simp [scopeSetValue, scopeGet]
  | cons e r ih =>
    by_cases h : e.1 = n
    · simp [scopeSetValue, scopeGet, h]
    · simp [scopeSetValue, scopeGet, h, ih]

theorem scopeRemoveDyn_fst (sc : ScopeL) (n : String) :
    (scopeRemoveDyn sc n).1 = scopeGet sc n := by
  induction sc with
  | nil => rfl
  | cons e r ih =>
    by_cases h : e.1 = n
    · simp [scopeRemoveDyn, scopeGet, h]
    · rcases hh : scopeRemoveDyn r n with ⟨v, r2⟩
      rw [hh] at ih
      simp [scopeRemoveDyn, scopeGet, h, hh, ← ih]

theorem scopeRemoveDyn_get_none (sc : ScopeL) (n : String)
    (h : scopeGet sc n = none) : scopeRemoveDyn sc n = (none, sc) := by
  induction sc with
  | nil => rfl
  | cons e r ih =>
    by_cases he : e.1 = n
    · simp [scopeGet, he] at h
    · simp [scopeGet, he] at h
      simp [scopeRemoveDyn, he, ih h]

theorem scopeRemoveMap_get_none (sc : ScopeL) (n : String)
    (h : scopeGet sc n = none) : scopeRemoveMap sc n = (none, sc) := by
  simp [scopeRemoveMap, scopeRemoveDyn_get_none sc n h]

theorem scopeRemoveMap_nonmap (sc sc1 : ScopeL) (n : String) (v : Dyn)
    (h : scopeRemoveDyn sc n = (some v, sc1)) (hv : ∀ m, v ≠ Dyn.map m) :
    scopeRemoveMap sc n = (none, sc1) := by
  unfold scopeRemoveMap
  rw [h]
  cases v with
  | unit => rfl
  | int i => rfl
  | str s => rfl
  | arr xs => rfl
  | map m => exact absurd rfl (hv m)

theorem mapGet_insert (m : List (String × Dyn)) (k : String) (v : Dyn) :
    mapGet (mapInsert m k v) k = some v := by
  induction m with
  | nil => simp [mapInsert, mapGet]
  | cons e r ih =>
    by_cases h : e.1 = k
    · simp [mapInsert, mapGet, h]
    · simp [mapInsert, mapGet, h, ih]

theorem ensure_state_get_some (sc : ScopeL) (v : Dyn)
    (h : scopeGet sc "state" = some v) : ensure_state sc = sc := by
  unfold ensure_state
  rw [h]

theorem run_command_command (eval : Eval) (builtin : String) (s : ClientState)
    (c : String) : (run_command eval builtin s c).1.command = s.command := by
  rcases h : eval s.scope (runProgram s.script builtin c) with ⟨r, sc⟩
  cases r <;> simp [run_command, h]

theorem updatePhase_command (eval : Eval) (builtin : String)
    (q : List (Nat × Transform)) (s : ClientState) :
    (updatePhase eval builtin q s).command = s.command := by
  unfold updatePhase
  rw [run_command_command]

theorem updatePhase_eq (eval : Eval) (builtin : String)
    (q : List (Nat × Transform)) (s : ClientState) :
    updatePhase eval builtin q s =
      (match eval (injectSnapshot (ensure_state s.scope) (snapshotDyn q))
          (runProgram s.script builtin "state.update();") with
       | (Except.error e, sc) =>
         { s with scope := sc, response_text := "error running state.update();: " ++ e }
       | (Except.ok _, sc) => { s with scope := sc }) := by
  rcases h : eval (injectSnapshot (ensure_state s.scope) (snapshotDyn q))
      (runProgram s.script builtin "state.update();") with ⟨r, sc⟩
  cases r <;> simp [updatePhase, run_command, h]

/-- The scope left in the plugin state by run_command is the scope produced
by evaluating the combined program built from the current script field. -/
theorem run_command_scope (eval : Eval) (builtin : String) (s : ClientState)
    (cmd : String) :
    (run_command eval builtin s cmd).1.scope =
      (eval s.scope (runProgram s.script builtin cmd)).2 := by
  rcases h : eval s.scope (runProgram s.script builtin cmd) with ⟨r, sc⟩
  cases r <;> simp [run_command, h]

/-! ### C1 -/

/-- C1 counterexample: starting from committed source old_source, proposing
the text bad_source( whose compile fails leaves bad_source( committed, not
old_source, so the committed source after the failed proposal differs from
the committed source before it; only the response text records the
failure.  The editor widget writes the edited text into the script field
before the compile check runs, and nothing restores the previous text. -/
theorem C1_counterexample :
    (ui_update (fun _ => Except.error "unexpected token") "bad_source(" "" false
      ⟨[], "old_source", "", "", none⟩).script = "bad_source(" ∧
    "bad_source(" ≠ "old_source" ∧
    (ui_update (fun _ => Except.error "unexpected token") "bad_source(" "" false
      ⟨[], "old_source", "", "", none⟩).response_text =
      "Script compile error: unexpected token" := by
  refine ⟨rfl, by decide, rfl⟩

/-- C1 amended: a failed compile of an edited script does not preserve the
committed source: the edited text is already committed when the compile
check runs, the response text carries the diagnostic, and the next tick
evaluates a program built from the edited text, not from the previous
source. -/
theorem C1_amended (compile : String → Except String Unit) (eval : Eval)
    (builtin txt cl cmd e : String) (clicked : Bool) (s : ClientState)
    (hchg : txt ≠ s.script) (hc : compile txt = Except.error e) :
    (ui_update compile txt cl clicked s).script = txt ∧
    (ui_update compile txt cl clicked s).response_text =
      "Script compile error: " ++ e ∧
    (run_command eval builtin (ui_update compile txt cl clicked s) cmd).1.scope =
      (eval (ui_update compile txt cl clicked s).scope (runProgram txt builtin cmd)).2 := by
  have h1 : (ui_update compile txt cl clicked s).script = txt := by
    cases clicked <;> simp [ui_update, hchg, hc]
  have h2 : (ui_update compile txt cl clicked s).response_text =
      "Script compile error: " ++ e := by
    cases clicked <;> simp [ui_update, hchg, hc]
  refine ⟨h1, h2, ?_⟩
  rw [run_command_scope, h1]

/-- C1 witness: the amended theorem applied at a concrete failed proposal. -/
theorem C1_witness :
    (ui_update (fun _ => Except.error "boom") "newsrc(" "" false
      ⟨[], "oldsrc", "", "", none⟩).script = "newsrc(" ∧
    (ui_update (fun _ => Except.error "boom") "newsrc(" "" false
      ⟨[], "oldsrc", "", "", none⟩).response_text = "Script compile error: boom" :=
  ⟨(C1_amended (fun _ => Except.error "boom") (fun sc _ => (Except.ok Dyn.unit, sc))
      "B" "newsrc(" "" "c" "boom" false ⟨[], "oldsrc", "", "", none⟩
      (by decide) rfl).1,
   (C1_amended (fun _ => Except.error "boom") (fun sc _ => (Except.ok Dyn.unit, sc))
      "B" "newsrc(" "" "c" "boom" false ⟨[], "oldsrc", "", "", none⟩
      (by decide) rfl).2.1⟩

/-! ### C2 -/

/-- C2: a tick in which the script left the written back snapshot with the
malformed key bogus aborts with the modelled panic of the unwrap at
lib.rs line 132, instead of reporting a recoverable error: the write back
has no error branch at all for a key that fails to parse back to an
EntityId. -/
theorem C2_malformed_key_panics :
    transform_editor
      (fun _ _ => (Except.ok Dyn.unit,
        [("state", Dyn.map [("transforms",
          Dyn.map [("bogus", encodeTransform ⟨⟨0, 0, 0⟩, ⟨0, 0, 0, 1⟩⟩)])])]))
      "" [] ⟨[], "scr", "", "", none⟩ =
    Except.error ("panicked: invalid EntityId key: bogus") := rfl

/-! ### C3 -/

/-- C3 counterexample: a snapshot of two entities in which exactly the
entry of entity 2 is schema invalid.  The whole map decode fails, so the
tick performs no write at all: entity 1 is not committed, and the reported
error text does not identify entity 2.  This contradicts the claimed per
entity isolation, under which the write list would contain entity 1 and
the error would mention entity 2. -/
theorem C3_counterexample :
    transform_editor
      (fun _ _ => (Except.ok Dyn.unit,
        [("state", Dyn.map [("transforms",
          Dyn.map [("1", encodeTransform ⟨⟨0, 0, 0⟩, ⟨0, 0, 0, 1⟩⟩),
                   ("2", Dyn.int 7)])])]))
      "" [] ⟨[], "s3", "", "", none⟩ =
    Except.ok (⟨[("state", Dyn.map [])], "s3",
      "error: Data type incorrect for Transform", "", none⟩, []) := rfl

/-- C3 amended: write back is all or nothing over the values: when any
entry of the snapshot fails to decode, no entity is written, and the single
whole map diagnostic replaces the response text (a malformed key instead
panics, see the C2 theorem). -/
theorem C3_amended (sc sc1 : ScopeL) (resp : String)
    (st st1 : List (String × Dyn)) (tr : Dyn) (e : String)
    (h1 : scopeRemoveMap sc "state" = (some st, sc1))
    (h2 : mapRemove st "transforms" = (some tr, st1))
    (h3 : fromDynamicMap tr = Except.error e) :
    writeback sc resp =
      Except.ok (scopeSetValue sc1 "state" (Dyn.map st1), "error: " ++ e, []) := by
  simp [writeback, h1, h2, h3]

/-- C3 witness: the amended theorem applied at a concrete scope whose
snapshot value fails to decode. -/
theorem C3_witness :
    writeback [("state", Dyn.map [("transforms", Dyn.int 9)])] "r" =
      Except.ok ([("state", Dyn.map [])],
        "error: Data type incorrect: expected map", []) :=
  C3_amended [("state", Dyn.map [("transforms", Dyn.int 9)])] [] "r"
    [("transforms", Dyn.int 9)] [] (Dyn.int 9)
    "Data type incorrect: expected map" rfl rfl rfl

/-! ### C4 -/

/-- C4 counterexample: with an empty scope and a one entity query, after
the ensure and inject steps (lib.rs lines 93-109) the scope holds exactly
one entry, the state map, and the snapshot sits inside that map under the
transforms key; no separate scope key holds the snapshot.  This is the
scope against which the update entry point is evaluated. -/
theorem C4_counterexample :
    injectSnapshot (ensure_state [])
        (snapshotDyn [(1, ⟨⟨0, 0, 0⟩, ⟨0, 0, 0, 1⟩⟩)]) =
      [("state", Dyn.map [("transforms",
        Dyn.map [("1", encodeTransform ⟨⟨0, 0, 0⟩, ⟨0, 0, 0, 1⟩⟩)])])] ∧
    scopeGet (injectSnapshot (ensure_state [])
        (snapshotDyn [(1, ⟨⟨0, 0, 0⟩, ⟨0, 0, 0, 1⟩⟩)])) "transforms" = none := by
  exact ⟨rfl, rfl⟩

/-- C4 amended: the per tick snapshot is injected inside the reserved state
map itself, under the transforms key, overwriting that key; after the
injection the state entry of the scope holds the snapshot alongside any
script persisted data, and the snapshot is reachable only through the
state map. -/
theorem C4_amended (sc sc1 : ScopeL) (st : List (String × Dyn)) (snap : Dyn)
    (h : scopeRemoveMap sc "state" = (some st, sc1)) :
    injectSnapshot sc snap =
      scopeSetValue sc1 "state" (Dyn.map (mapInsert st "transforms" snap)) ∧
    mapGet (mapInsert st "transforms" snap) "transforms" = some snap ∧
    scopeGet (injectSnapshot sc snap) "state" =
      some (Dyn.map (mapInsert st "transforms" snap)) := by
  have hinj : injectSnapshot sc snap =
      scopeSetValue sc1 "state" (Dyn.map (mapInsert st "transforms" snap)) := by
    simp [injectSnapshot, h]
  refine ⟨hinj, mapGet_insert st "transforms" snap, ?_⟩
  rw [hinj]
  exact scopeGet_setValue sc1 "state" _

/-- C4 witness: the amended theorem applied at a concrete scope whose state
map already holds script data. -/
theorem C4_witness :
    injectSnapshot [("state", Dyn.map [("x", Dyn.int 3)])] (Dyn.int 9) =
      scopeSetValue [] "state"
        (Dyn.map (mapInsert [("x", Dyn.int 3)] "transforms" (Dyn.int 9))) ∧
    mapGet (mapInsert [("x", Dyn.int 3)] "transforms" (Dyn.int 9)) "transforms" =
      some (Dyn.int 9) ∧
    scopeGet (injectSnapshot [("state", Dyn.map [("x", Dyn.int 3)])] (Dyn.int 9))
      "state" =
      some (Dyn.map (mapInsert [("x", Dyn.int 3)] "transforms" (Dyn.int 9))) :=
  C4_amended [("state", Dyn.map [("x", Dyn.int 3)])] [] [("x", Dyn.int 3)]
    (Dyn.int 9) rfl

/-! ### C5 -/

/-- C5: when the tick has a pending command, the command is evaluated
against the state produced by the update phase (so it observes the post
update scope), and its outcome replaces the response text: the Returned
message built from the returned value on success, the diagnostic carrying
the command and its error message on failure. -/
theorem C5_command_after_update (eval : Eval) (builtin : String)
    (q : List (Nat × Transform)) (s : ClientState) (cmd : String)
    (h : s.command = some cmd) :
    (commandPhase eval builtin (updatePhase eval builtin q s)).response_text =
      (match eval (updatePhase eval builtin q s).scope
          (runProgram (updatePhase eval builtin q s).script builtin cmd) with
       | (Except.ok d, _) => "Returned: " ++ dynDisplay d
       | (Except.error e, _) => "error running " ++ cmd ++ ": " ++ e) := by
  have hc : (updatePhase eval builtin q s).command = some cmd := by
    rw [updatePhase_command]
    exact h
  rcases he : eval (updatePhase eval builtin q s).scope
      (runProgram (updatePhase eval builtin q s).script builtin cmd) with ⟨r, sc⟩
  cases r <;> simp [commandPhase, run_command, hc, he]

/-- C5 witness: the spec scenario, a command whose evaluation returns the
integer 0 produces the response text Returned: 0. -/
theorem C5_witness :
    (commandPhase (fun sc _ => (Except.ok (Dyn.int 0), sc)) ""
      (updatePhase (fun sc _ => (Except.ok (Dyn.int 0), sc)) "" []
        ⟨[], "w5", "", "", some "state.run_me()"⟩)).response_text =
      "Returned: 0" := by
  exact C5_command_after_update (fun sc _ => (Except.ok (Dyn.int 0), sc)) "" []
    ⟨[], "w5", "", "", some "state.run_me()"⟩ "state.run_me()" rfl

/-! ### C6 -/

/-- C6: queuing command A and then command B before the tick runs leaves
only B in the slot (the Run button overwrites the slot, it does not
queue); the tick that consumes the slot evaluates exactly the stored
command and leaves the slot empty, so at most one command runs per tick. -/
theorem C6_command_overwrite (compile : String → Except String Unit)
    (eval : Eval) (builtin ta tb a b : String) (s x : ClientState)
    (hx : x.command = some b) :
    (ui_update compile tb b true (ui_update compile ta a true s)).command =
      some b ∧
    commandPhase eval builtin x =
      (match run_command eval builtin { x with command := none } b with
       | (s3, Except.ok d) =>
         { s3 with response_text := "Returned: " ++ dynDisplay d }
       | (s3, Except.error _) => s3) ∧
    (commandPhase eval builtin x).command = none := by
  refine ⟨rfl, ?_, ?_⟩
  · unfold commandPhase
    rw [hx]
  · unfold commandPhase
    rw [hx]
    rcases hrc : run_command eval builtin { x with command := none } b with ⟨s3, r⟩
    have h3 : s3.command = none := by
      have hh := run_command_command eval builtin { x with command := none } b
      rw [hrc] at hh
      simpa using hh
    cases r <;> simp [hrc, h3]

/-- C6 witness: the theorem applied at concrete commands A and B. -/
theorem C6_witness :
    (ui_update (fun _ => Except.ok ()) "t2" "B" true
      (ui_update (fun _ => Except.ok ()) "t1" "A" true
        ⟨[], "w6", "", "", none⟩)).command = some "B" ∧
    commandPhase (fun sc _ => (Except.ok Dyn.unit, sc)) ""
        ⟨[], "w6x", "", "", some "B"⟩ =
      (match run_command (fun sc _ => (Except.ok Dyn.unit, sc)) ""
          { (⟨[], "w6x", "", "", some "B"⟩ : ClientState) with command := none }
          "B" with
       | (s3, Except.ok d) =>
         { s3 with response_text := "Returned: " ++ dynDisplay d }
       | (s3, Except.error _) => s3) ∧
    (commandPhase (fun sc _ => (Except.ok Dyn.unit, sc)) ""
      ⟨[], "w6x", "", "", some "B"⟩).command = none :=
  C6_command_overwrite (fun _ => Except.ok ())
    (fun sc _ => (Except.ok Dyn.unit, sc)) "" "t1" "t2" "A" "B"
    ⟨[], "w6", "", "", none⟩ ⟨[], "w6x", "", "", some "B"⟩ rfl

/-! ### C7 -/

/-- C7 counterexample: a compile check that accepts exactly the sources
starting with the prelude rejects what the edit path hands it, because the
edit path compiles the candidate source alone; and the program evaluated
per tick does not start with the prelude either, the prelude is placed
after the script. -/
theorem C7_counterexample :
    (ui_update
      (fun src =>
        if List.isPrefixOf ("BUILTINS".data) src.data then Except.ok ()
        else Except.error "prelude missing")
      "S" "" false ⟨[], "orig", "", "", none⟩).response_text =
      "Script compile error: prelude missing" ∧
    runProgram "S" "BUILTINS" "cmd" = "\nS\nBUILTINS\ncmd" ∧
    List.isPrefixOf ("BUILTINS".data)
      ((runProgram "S" "BUILTINS" "cmd").data) = false := by
  refine ⟨rfl, rfl, rfl⟩

/-- C7 amended: the compile on edit check receives the candidate source
alone, with no prelude at all, while per tick execution evaluates the
newline joined concatenation script, then builtin prelude, then command:
the prelude is appended after the source, not prepended, and the two paths
do not see the same program. -/
theorem C7_amended (compile : String → Except String Unit) (eval : Eval)
    (builtin txt cl cmd : String) (s : ClientState) (hchg : txt ≠ s.script) :
    (ui_update compile txt cl false s).response_text =
      (match compile txt with
       | Except.error e => "Script compile error: " ++ e
       | Except.ok _ => "Compilation successful") ∧
    runProgram s.script builtin cmd =
      "\n" ++ s.script ++ "\n" ++ builtin ++ "\n" ++ cmd ∧
    (run_command eval builtin s cmd).1.scope =
      (eval s.scope ("\n" ++ s.script ++ "\n" ++ builtin ++ "\n" ++ cmd)).2 := by
  refine ⟨?_, rfl, ?_⟩
  · rcases hc : compile txt with e | u <;> simp [ui_update, hchg, hc]
  · rw [run_command_scope]
    rfl

/-- C7 witness: the amended theorem applied at concrete strings. -/
theorem C7_witness :
    (ui_update (fun _ => Except.ok ()) "t7" "" false
      ⟨[], "sc7", "", "", none⟩).response_text =
      (match (fun (_ : String) => (Except.ok () : Except String Unit)) "t7" with
       | Except.error e => "Script compile error: " ++ e
       | Except.ok _ => "Compilation successful") ∧
    runProgram "sc7" "B7" "c7" = "\n" ++ "sc7" ++ "\n" ++ "B7" ++ "\n" ++ "c7" ∧
    (run_command (fun sc _ => (Except.ok Dyn.unit, sc)) "B7"
      ⟨[], "sc7", "", "", none⟩ "c7").1.scope =
      ((fun (sc : ScopeL) (_ : String) =>
          ((Except.ok Dyn.unit : Except String Dyn), sc))
        ([] : ScopeL) ("\n" ++ "sc7" ++ "\n" ++ "B7" ++ "\n" ++ "c7")).2 :=
  C7_amended (fun _ => Except.ok ()) (fun sc _ => (Except.ok Dyn.unit, sc))
    "B7" "t7" "" "c7" ⟨[], "sc7", "", "", none⟩ (by decide)

/-! ### C8 -/

/-- C8 counterexample: a tick whose update succeeds, with no pending
command and a cleanly decoding write back, leaves the response text of the
previous tick in place: the response text is not overwritten each tick,
the update success path never touches it. -/
theorem C8_counterexample :
    transform_editor (fun sc _ => (Except.ok Dyn.unit, sc)) "" []
      ⟨[], "s8", "stale message", "", none⟩ =
    Except.ok (⟨[("state", Dyn.map [])], "s8", "stale message", "", none⟩, []) :=
  rfl

/-- C8 amended: the response text persists by default: a tick overwrites
it only when the update evaluation fails, a pending command runs, or the
write back decode fails; on a successful update with no pending command
and a clean write back the previous response text is returned unchanged. -/
theorem C8_amended (eval : Eval) (builtin : String)
    (q : List (Nat × Transform)) (s : ClientState) (d : Dyn) (sc2 scw : ScopeL)
    (w : List (Nat × Transform))
    (hcmd : s.command = none)
    (hup : eval (injectSnapshot (ensure_state s.scope) (snapshotDyn q))
        (runProgram s.script builtin "state.update();") = (Except.ok d, sc2))
    (hwb : writeback sc2 s.response_text =
      Except.ok (scw, s.response_text, w)) :
    transform_editor eval builtin q s = Except.ok ({ s with scope := scw }, w) := by
  have hu : updatePhase eval builtin q s = { s with scope := sc2 } := by
    rw [updatePhase_eq, hup]
  have hcp : commandPhase eval builtin { s with scope := sc2 } =
      { s with scope := sc2 } := by
    simp [commandPhase, hcmd]
  unfold transform_editor
  rw [hu, hcp]
  simp [hwb]

/-- C8 witness: the amended theorem applied at a concrete quiet tick. -/
theorem C8_witness :
    transform_editor (fun sc _ => (Except.ok Dyn.unit, sc)) "" []
      ⟨[], "w8", "keep me", "", none⟩ =
    Except.ok (⟨[("state", Dyn.map [])], "w8", "keep me", "", none⟩, []) := by
  exact C8_amended (fun sc _ => (Except.ok Dyn.unit, sc)) "" []
    ⟨[], "w8", "keep me", "", none⟩ Dyn.unit
    [("state", Dyn.map [("transforms", Dyn.map [])])]
    [("state", Dyn.map [])] [] rfl rfl rfl

/-! ### C9 -/

/-- C9 counterexample: when the state entry holds a non map value (the
integer 5), the ensure step leaves it alone, but the typed removal inside
the injection step drops the entry, so at the moment the update entry
point is evaluated the scope has no state entry at all: a probe evaluator
that reports whether state is visible records state absent at update. -/
theorem C9_counterexample :
    ensure_state [("state", Dyn.int 5)] = [("state", Dyn.int 5)] ∧
    scopeGet (injectSnapshot (ensure_state [("state", Dyn.int 5)])
      (snapshotDyn [])) "state" = none ∧
    (updatePhase
        (fun sc _ =>
          ((match scopeGet sc "state" with
            | none => Except.error "state absent at update"
            | some _ => Except.error "state present at update"), sc))
        "" [] ⟨[("state", Dyn.int 5)], "s9", "", "", none⟩).response_text =
      "error running state.update();: state absent at update" := by
  exact ⟨rfl, rfl, rfl⟩

/-- C9 amended: the ensure step is idempotent and never destructive (a
second ensure is the identity, and any existing state entry is kept as
is), and the state entry exists right after the ensure step on every tick;
it still exists at the update call whenever it was absent at tick start or
held a map, but a non map state value is dropped by the typed removal of
the injection step, so in that one corner the update runs without state. -/
theorem C9_amended :
    (∀ sc, ensure_state (ensure_state sc) = ensure_state sc) ∧
    (∀ sc v, scopeGet sc "state" = some v → ensure_state sc = sc) ∧
    (∀ sc, scopeGet (ensure_state sc) "state" ≠ none) ∧
    (∀ sc snap m, scopeGet sc "state" = some (Dyn.map m) →
      ∃ st, scopeGet (injectSnapshot (ensure_state sc) snap) "state" =
        some (Dyn.map st)) ∧
    (∀ sc snap, scopeGet sc "state" = none →
      ∃ st, scopeGet (injectSnapshot (ensure_state sc) snap) "state" =
        some (Dyn.map st)) := by
  refine ⟨?_, ?_, ?_, ?_, ?_⟩
  · intro sc
    rcases h : scopeGet sc "state" with _ | v
    · simp [ensure_state, h, scopeGet_push_same]
    · simp [ensure_state, h]
  · intro sc v h
    exact ensure_state_get_some sc v h
  · intro sc
    rcases h : scopeGet sc "state" with _ | v
    · simp [ensure_state, h, scopeGet_push_same]
    · simp [ensure_state, h]
  · intro sc snap m h
    have he : ensure_state sc = sc := ensure_state_get_some sc _ h
    rw [he]
    rcases hr : scopeRemoveDyn sc "state" with ⟨v, sc1⟩
    have hv : v = some (Dyn.map m) := by
      have hf := scopeRemoveDyn_fst sc "state"
      rw [hr, h] at hf
      exact hf
    subst hv
    have hm : scopeRemoveMap sc "state" = (some m, sc1) := by
      simp [scopeRemoveMap, hr]
    refine ⟨mapInsert m "transforms" snap, ?_⟩
    simp [injectSnapshot, hm, scopeGet_setValue]
  · intro sc snap h
    have he : ensure_state sc = scopePush sc "state" (Dyn.map []) := by
      simp [ensure_state, h]
    rw [he]
    refine ⟨mapInsert [] "transforms" snap, ?_⟩
    simp [injectSnapshot, scopeRemoveMap, scopeRemoveDyn, scopePush,
      scopeGet_setValue]

/-- C9 witness: the amended theorem applied at concrete scopes. -/
theorem C9_witness :
    ensure_state (ensure_state []) = ensure_state [] ∧
    (∃ st, scopeGet (injectSnapshot (ensure_state []) (Dyn.int 3)) "state" =
      some (Dyn.map st)) :=
  ⟨C9_amended.1 [], C9_amended.2.2.2.2 [] (Dyn.int 3) rfl⟩

/-! ### C10 -/

/-- C10 counterexample: with state holding the non map integer 5, an
evaluator that faults on the missing state variable (as rhai does for the
fixed update command, which references state) makes the tick record an
error in the response text, contradicting the claim that nothing is
recorded; the final scope shows the state entry was dropped entirely by
the typed removal, and the write list is empty. -/
theorem C10_counterexample :
    transform_editor
      (fun sc _ => (Except.error "Variable not found: state", sc)) "" []
      ⟨[("state", Dyn.int 5)], "s10", "", "", none⟩ =
    Except.ok (⟨[], "s10",
      "error running state.update();: Variable not found: state", "",
      none⟩, []) := rfl

/-- C10 amended: when the state entry holds a non map value, the typed
removal of the injection step drops the entry and injects nothing; the
update entry point is still invoked, but against a scope with no state
entry, so an evaluator that reports an error there has it recorded in the
response text; the write back finds no state entry either, so no entity is
written and the snapshot phase contributes nothing further. -/
theorem C10_amended (eval : Eval) (builtin : String)
    (q : List (Nat × Transform)) (s : ClientState) (v : Dyn) (sc1 sc2 : ScopeL)
    (e : String)
    (hget : scopeGet s.scope "state" = some v)
    (hnm : ∀ m, v ≠ Dyn.map m)
    (hrem : scopeRemoveDyn s.scope "state" = (some v, sc1))
    (hcmd : s.command = none)
    (heval : eval sc1 (runProgram s.script builtin "state.update();") =
      (Except.error e, sc2))
    (hsc2 : scopeGet sc2 "state" = none) :
    transform_editor eval builtin q s =
      Except.ok ({ s with
        scope := sc2,
        response_text := "error running state.update();: " ++ e }, []) := by
  have hens : ensure_state s.scope = s.scope :=
    ensure_state_get_some s.scope v hget
  have hrm : scopeRemoveMap s.scope "state" = (none, sc1) :=
    scopeRemoveMap_nonmap s.scope sc1 "state" v hrem hnm
  have hinj : injectSnapshot (ensure_state s.scope) (snapshotDyn q) = sc1 := by
    rw [hens]
    simp [injectSnapshot, hrm]
  have hu : updatePhase eval builtin q s =
      { s with
        scope := sc2,
        response_text := "error running state.update();: " ++ e } := by
    rw [updatePhase_eq, hinj, heval]
  have hcp : commandPhase eval builtin
      { s with
        scope := sc2,
        response_text := "error running state.update();: " ++ e } =
      { s with
        scope := sc2,
        response_text := "error running state.update();: " ++ e } := by
    simp [commandPhase, hcmd]
  unfold transform_editor
  rw [hu, hcp]
  simp [writeback, scopeRemoveMap_get_none sc2 "state" hsc2]

/-- C10 witness: the amended theorem applied at a concrete non map state. -/
theorem C10_witness :
    transform_editor
      (fun sc _ => (Except.error "Variable not found: state", sc)) "" []
      ⟨[("state", Dyn.int 5)], "w10", "", "", none⟩ =
    Except.ok (⟨[], "w10",
      "error running state.update();: Variable not found: state", "",
      none⟩, []) := by
  exact C10_amended (fun sc _ => (Except.error "Variable not found: state", sc))
    "" [] ⟨[("state", Dyn.int 5)], "w10", "", "", none⟩ (Dyn.int 5) [] []
    "Variable not found: state" rfl (fun m h => Dyn.noConfusion h) rfl rfl rfl rfl
